import Mathlib

/-!
Verification development for the WebSocket proxy agent
(connection/session manager and request-execution protocol).

The embedding translates the connection-manager module: the session state
(module-level mutable variables), the event handlers (`onSocketOpen`,
`onSocketClose`, `onSocketMessage`), the keep-alive loop (`startPing` /
`stopPing` / the interval tick), the reconnect scheduler
(`scheduleReconnect` and the timer callback), and the public commands
(`connect`, `disconnect`).  Each handler becomes a pure function from a
`Session` to a `Session` paired with the list of side effects it performs
(status notifications, socket sends, transport opens/closes, timer
operations).  The HTTP execution bridge (`handleHttpRequest`) is embedded
separately as a function from an inbound command and a description of the
fetch outcome to the fetch call it issues and the ordered list of outbound
messages it passes to `sendToServer`.
-/

namespace WSProxy

/-- Connection status values (`WebSocketProxyStatus`). -/
inductive Status where
  | IDLE
  | CONNECTING
  | CONNECTED
  | RECONNECTING
  | DISCONNECTED
  | ERROR
deriving DecidableEq, Repr

/-- WebSocket `readyState` values (`WS_CONNECTING` .. `WS_CLOSED`). -/
inductive SocketReady where
  | CONNECTING
  | OPEN
  | CLOSING
  | CLOSED
deriving DecidableEq, Repr

/-- `PING_INTERVAL_MS = 25 * 1000`. -/
def PING_INTERVAL_MS : Nat := 25 * 1000

/-- `RECONNECT_INITIAL_DELAY_MS = 1000`. -/
def RECONNECT_INITIAL_DELAY_MS : Nat := 1000

/-- `RECONNECT_MAX_DELAY_MS = 30 * 1000`. -/
def RECONNECT_MAX_DELAY_MS : Nat := 30 * 1000

/-- `RECONNECT_JITTER_MS = 500`; the uniformly random jitter in
`[0, RECONNECT_JITTER_MS)` is added to the scheduled base delay at runtime.
Effects below record the non-jittered component of each scheduled delay. -/
def RECONNECT_JITTER_MS : Nat := 500

/-- Base URL for the socket (`WEBSOCKET_PROXY_URL` from `config.ts`). -/
def WEBSOCKET_PROXY_URL : String := "wss://your-proxy-url/v1/ws"

/-- Headers are an ordered mapping of name to value. -/
abbrev Headers := List (String × String)

/-- Payload of an inbound `http_request` message. -/
structure HttpRequestPayload where
  method : String
  url : String
  headers : Headers
  body : Option String
deriving DecidableEq, Repr

/-- An inbound `http_request` wire message (`WSHttpRequestMessage`). -/
structure WSHttpRequestMessage where
  id : String
  payload : HttpRequestPayload
deriving DecidableEq, Repr

/-- Agent-to-server wire messages (`WSClientSentMessage`). -/
inductive OutMsg where
  | httpResponse (id : String) (status : Nat) (headers : Headers) (body : String)
  | streamStart (id : String) (status : Nat) (headers : Headers)
  | streamChunk (id : String) (data : String)
  | streamEnd (id : String)
  | errorMsg (id : String) (code : String) (message : String)
      (httpResponse : Option (Nat × String))
  | ping
deriving DecidableEq, Repr

/-- The correlation id of an outbound message, when it has one
(`ping` carries none). -/
def OutMsg.msgId : OutMsg → Option String
  | .httpResponse i _ _ _ => some i
  | .streamStart i _ _ => some i
  | .streamChunk i _ => some i
  | .streamEnd i => some i
  | .errorMsg i _ _ _ => some i
  | .ping => none

/-- Parsed inbound (server-to-agent) messages, by their `type` discriminator. -/
inductive ServerMsg where
  | httpRequest (m : WSHttpRequestMessage)
  | pong
  | other (t : String)
deriving DecidableEq, Repr

/-- An inbound transport frame: either JSON-parseable into a `ServerMsg`
or not parseable at all. -/
inductive InboundFrame where
  | unparseable (raw : String)
  | parsed (msg : ServerMsg)
deriving DecidableEq, Repr

/-- Observable side effects performed by the connection manager. -/
inductive Effect where
  | statusChange (st : Status) (detail : Option String)
  | send (m : OutMsg)
  | openTransport (url : String)
  | closeTransport (code : Nat) (reason : String)
  | scheduleTimer (baseDelayMs : Nat)
  | clearTimer
  | dispatchHttp (m : WSHttpRequestMessage)
  | log (s : String)
deriving DecidableEq, Repr

/-- The session state: the module-level mutable variables of the
connection manager.  `statusDetail` records the detail string attached to
the last status transition; `pingActive` models `pingIntervalId !== null`;
`reconnectPending` models `reconnectTimeoutId !== null`. -/
structure Session where
  socket : Option SocketReady
  currentStatus : Status
  statusDetail : Option String
  pingActive : Bool
  reconnectPending : Bool
  currentReconnectDelay : Nat
  explicitClose : Bool
  currentJwtToken : Option String
deriving DecidableEq, Repr

/-- Initial state of the module-level variables. -/
def initSession : Session :=
  { socket := none
    currentStatus := Status.IDLE
    statusDetail := none
    pingActive := false
    reconnectPending := false
    currentReconnectDelay := RECONNECT_INITIAL_DELAY_MS
    explicitClose := false
    currentJwtToken := none }

/-- JavaScript truthiness of an optional string: `null`/`undefined` and the
empty string are falsy. -/
def strFalsy : Option String → Bool
  | none => true
  | some s => s = ""

/-- `updateStatus(newStatus, details)`: early-returns when the status is
unchanged and no details are given; otherwise records the new status and
detail and notifies the observer. -/
def updateStatus (newStatus : Status) (details : Option String) (s : Session) :
    Session × List Effect :=
  if s.currentStatus = newStatus ∧ strFalsy details then (s, [])
  else ({ s with currentStatus := newStatus, statusDetail := details },
        [Effect.statusChange newStatus details])

/-- `sendToServer(message)`: sends only when the socket exists and is open;
otherwise the message is dropped with a warning. -/
def sendToServer (s : Session) (m : OutMsg) : List Effect :=
  if s.socket = some SocketReady.OPEN then [Effect.send m]
  else [Effect.log "Cannot send message, socket not open."]

/-- `startPing()`: stops any previous interval and starts the keep-alive
interval. -/
def startPing (s : Session) : Session :=
  { s with pingActive := true }

/-- `stopPing()`: clears the keep-alive interval if one is running. -/
def stopPing (s : Session) : Session :=
  { s with pingActive := false }

/-- One tick of the keep-alive interval: while the interval is live it
sends one `ping`; when it is stopped nothing runs. -/
def pingTick (s : Session) : List Effect :=
  if s.pingActive then sendToServer s OutMsg.ping else []

/-- `scheduleReconnect()`: aborts to Idle on explicit close or missing
token; otherwise clears any stale timer, reports Reconnecting, schedules
the timer with the current delay (plus runtime jitter, not recorded), and
then doubles the stored delay up to the ceiling. -/
def scheduleReconnect (s : Session) : Session × List Effect :=
  if s.explicitClose || strFalsy s.currentJwtToken then
    updateStatus Status.IDLE
      (some "Reconnection not attempted (explicit close or no token).") s
  else
    let (s1, e1) :=
      if s.reconnectPending then (s, [Effect.clearTimer]) else (s, [])
    let (s2, e2) :=
      updateStatus Status.RECONNECTING (some "Attempting to reconnect...") s1
    ({ s2 with reconnectPending := true,
               currentReconnectDelay :=
                 min (s2.currentReconnectDelay * 2) RECONNECT_MAX_DELAY_MS },
     e1 ++ e2 ++ [Effect.scheduleTimer s2.currentReconnectDelay])

/-- The connection URL: token appended as the `auth_token` query
parameter. -/
def wsUrl (jwtToken : String) : String :=
  WEBSOCKET_PROXY_URL ++ "?auth_token=" ++ jwtToken

/-- `connect(jwtToken)`.  `instOk` tells whether the `new WebSocket(...)`
constructor succeeds or throws. -/
def connect (jwtToken : String) (instOk : Bool) (s : Session) :
    Session × List Effect :=
  if jwtToken = "" then
    updateStatus Status.ERROR (some "JWT Token is required to connect.") s
  else
    let s0 := { s with currentJwtToken := some jwtToken }
    if s0.socket = some SocketReady.OPEN ∨ s0.socket = some SocketReady.CONNECTING then
      (s0, [Effect.log "Already connected or connecting."])
    else
      let s1 := { s0 with explicitClose := false }
      let (s2, e2) := updateStatus Status.CONNECTING none s1
      if instOk then
        ({ s2 with socket := some SocketReady.CONNECTING },
         e2 ++ [Effect.openTransport (wsUrl jwtToken)])
      else
        let (s3, e3) :=
          updateStatus Status.ERROR (some "Failed to instantiate WebSocket") s2
        let (s4, e4) := scheduleReconnect s3
        (s4, e2 ++ e3 ++ e4)

/-- `onSocketOpen()`: report Connected, reset the backoff delay to the
floor, cancel any pending reconnect timer, start the keep-alive loop. -/
def onSocketOpen (s : Session) : Session × List Effect :=
  let (s1, e1) := updateStatus Status.CONNECTED none s
  let s2 := { s1 with currentReconnectDelay := RECONNECT_INITIAL_DELAY_MS }
  let (s3, e3) :=
    if s2.reconnectPending then
      ({ s2 with reconnectPending := false }, [Effect.clearTimer])
    else (s2, [])
  (startPing s3, e1 ++ e3)

/-- The transport's `open` event: the socket's readyState becomes OPEN and
the registered `onSocketOpen` handler runs. -/
def openEvt (s : Session) : Session × List Effect :=
  onSocketOpen { s with socket := s.socket.map (fun _ => SocketReady.OPEN) }

/-- `onSocketClose(event)`: stop the keep-alive loop; a close while a
reconnect timer is already pending is ignored; an explicit close yields
Idle and clears the flag; otherwise report Disconnected and schedule a
reconnect.  The socket reference is dropped except in the ignored case. -/
def onSocketClose (code : Nat) (reason : String) (s : Session) :
    Session × List Effect :=
  let s0 := stopPing s
  if s0.reconnectPending then (s0, [])
  else if s0.explicitClose then
    let (s1, e1) :=
      updateStatus Status.IDLE
        (some ("Connection closed by client. Code: " ++ toString code)) s0
    ({ s1 with explicitClose := false, socket := none }, e1)
  else
    let (s1, e1) :=
      updateStatus Status.DISCONNECTED
        (some ("Connection closed. Code: " ++ toString code ++ ", Reason: " ++
          (if reason = "" then "N/A" else reason))) s0
    let (s2, e2) := scheduleReconnect s1
    ({ s2 with socket := none }, e1 ++ e2)

/-- The transport's `close` event: the socket's readyState becomes CLOSED
and the registered `onSocketClose` handler runs. -/
def closeEvt (code : Nat) (reason : String) (s : Session) :
    Session × List Effect :=
  onSocketClose code reason
    { s with socket := s.socket.map (fun _ => SocketReady.CLOSED) }

/-- The reconnect timer's callback: only runs while the timer is pending;
nulls the timer id, then reconnects with the stored token when it is still
truthy, otherwise aborts to Idle. -/
def timerFires (instOk : Bool) (s : Session) : Session × List Effect :=
  if s.reconnectPending then
    let s0 := { s with reconnectPending := false }
    if strFalsy s0.currentJwtToken then
      updateStatus Status.IDLE
        (some "Reconnect aborted: JWT token became unavailable.") s0
    else
      connect (s0.currentJwtToken.getD "") instOk s0
  else (s, [])

/-- `disconnect()`: set the explicit-close flag, drop the token, cancel the
reconnect timer, stop the keep-alive loop; close an open/connecting
transport (its close event arrives later), synthesise a close event for a
non-open transport, or report Idle when there is no transport. -/
def disconnect (s : Session) : Session × List Effect :=
  let s0 := { s with explicitClose := true, currentJwtToken := none }
  let (s1, e1) :=
    if s0.reconnectPending then
      ({ s0 with reconnectPending := false }, [Effect.clearTimer])
    else (s0, [])
  let s2 := stopPing s1
  match s2.socket with
  | some rs =>
    if rs = SocketReady.OPEN ∨ rs = SocketReady.CONNECTING then
      ({ s2 with socket := none },
       e1 ++ [Effect.closeTransport 1000 "Client initiated disconnect"])
    else
      let (s3, e3) :=
        onSocketClose 1000 "Client initiated disconnect on non-open socket" s2
      ({ s3 with socket := none }, e1 ++ e3)
  | none =>
    let (s3, e3) :=
      updateStatus Status.IDLE (some "Disconnected (no active socket).") s2
    ({ s3 with socket := none }, e1 ++ e3)

/-- `onSocketMessage(event)`: parse the frame; dispatch `http_request`
messages to the execution bridge as an independent asynchronous task;
recognise and discard `pong`; log and drop unknown types; log and drop
non-parseable frames. -/
def onSocketMessage (frame : InboundFrame) (s : Session) :
    Session × List Effect :=
  match frame with
  | InboundFrame.unparseable _ =>
      (s, [Effect.log "Error parsing message from server or handling it."])
  | InboundFrame.parsed (ServerMsg.httpRequest m) =>
      (s, [Effect.dispatchHttp m])
  | InboundFrame.parsed ServerMsg.pong => (s, [])
  | InboundFrame.parsed (ServerMsg.other _) =>
      (s, [Effect.log "Received unknown message type"])

/-!
## The HTTP execution bridge

`handleHttpRequest` performs the fetch and translates the outcome into
outbound messages.  The platform pieces it uses — the WHATWG `URL` object
and the incremental `TextDecoder` — are modelled below.  The `URL` model
keeps the scheme-and-authority prefix, the pathname, the ordered query
parameter list and the fragment; percent-encoding and host normalisation,
which the bridge's rewrite never exercises, are not modelled.
-/

/-- Model of a parsed WHATWG `URL`, retaining the parts the bridge uses. -/
structure ParsedUrl where
  base : String
  pathname : String
  params : List (String × String)
  hash : String
deriving DecidableEq, Repr

/-- Split a character list at the first occurrence of `sep`, when there is
one. -/
def splitFirst (sep : List Char) : List Char → Option (List Char × List Char)
  | [] => if sep = [] then some ([], []) else none
  | c :: cs =>
    if sep.isPrefixOf (c :: cs) then some ([], (c :: cs).drop sep.length)
    else
      match splitFirst sep cs with
      | some (b, r) => some (c :: b, r)
      | none => none

/-- Split a character list on every occurrence of the character `sep`. -/
def splitOnChar (sep : Char) : List Char → List (List Char)
  | [] => [[]]
  | c :: cs =>
    if c = sep then [] :: splitOnChar sep cs
    else
      match splitOnChar sep cs with
      | [] => [[c]]
      | h :: t => (c :: h) :: t

/-- One `name=value` piece of a query string: the name is everything up to
the first `=`, the value everything after it. -/
def parseQueryPair (piece : List Char) : String × String :=
  match splitFirst ['='] piece with
  | some (n, v) => (String.mk n, String.mk v)
  | none => (String.mk piece, "")

/-- Split a query string into its parameter list, skipping empty pieces. -/
def parseQuery (q : List Char) : List (String × String) :=
  ((splitOnChar '&' q).filter (fun p => p ≠ [])).map parseQueryPair

/-- Model of `new URL(url)` for absolute `scheme://authority/...` URLs;
`none` models the constructor throwing. -/
def parseUrl (url : String) : Option ParsedUrl :=
  match splitFirst [':', '/', '/'] url.data with
  | none => none
  | some (schemeCs, afterScheme) =>
    if schemeCs = [] then none
    else
      let authority :=
        afterScheme.takeWhile (fun c => c ≠ '/' && c ≠ '?' && c ≠ '#')
      if authority = [] then none
      else
        let rest := afterScheme.drop authority.length
        let path := rest.takeWhile (fun c => c ≠ '?' && c ≠ '#')
        let pathname := if path = [] then ['/'] else path
        let rest2 := rest.drop path.length
        let base := String.mk (schemeCs ++ ':' :: '/' :: '/' :: authority)
        match rest2 with
        | '?' :: qf =>
          let q := qf.takeWhile (fun c => c ≠ '#')
          some { base := base
                 pathname := String.mk pathname
                 params := parseQuery q
                 hash := String.mk (qf.drop q.length) }
        | _ =>
          some { base := base
                 pathname := String.mk pathname
                 params := []
                 hash := String.mk rest2 }

/-- Serialise a query parameter list, `name=value` pieces joined by `&`. -/
def serializeParams : List (String × String) → String
  | [] => ""
  | [p] => p.1 ++ "=" ++ p.2
  | p :: ps => p.1 ++ "=" ++ p.2 ++ "&" ++ serializeParams ps

/-- Model of `URL.toString()`: when the parameter list is empty no `?` is
emitted. -/
def serializeUrl (u : ParsedUrl) : String :=
  u.base ++ u.pathname ++
    (if u.params = [] then "" else "?" ++ serializeParams u.params) ++
    u.hash

/-- `String.endsWith`, via list suffix testing. -/
def strEndsWith (s suffix : String) : Bool :=
  suffix.data.isSuffixOf s.data

/-- The bridge's pre-processing rewrite (lines 64–77): for `GET` requests
whose parsed pathname ends in the models-listing segment and whose query
has a `key` parameter, delete every `key` parameter and re-serialise;
otherwise (including when URL parsing throws) the URL is unchanged. -/
def stripKeyFromModelsUrl (method url : String) : String :=
  if method = "GET" then
    match parseUrl url with
    | some pu =>
      if strEndsWith pu.pathname "/v1beta/models" ∨ strEndsWith pu.pathname "/v1beta/models/" then
        if pu.params.any (fun p => p.1 = "key") then
          serializeUrl { pu with params := pu.params.filter (fun p => p.1 ≠ "key") }
        else url
      else url
    | none => url
  else url

/-!
### Incremental UTF-8 text decoding

Model of `new TextDecoder()` (UTF-8, non-fatal) following the WHATWG
UTF-8 decode algorithm: decoding state (a partially accumulated code
point) carries over between `decode(value, {stream:true})` calls, and the
final argumentless `decode()` flushes a replacement character when the
stream ended inside a multi-byte sequence.
-/

/-- U+FFFD REPLACEMENT CHARACTER. -/
def replacementChar : Char := Char.ofNat 0xFFFD

/-- Decoder state between chunks. -/
structure Utf8State where
  codePoint : Nat
  bytesNeeded : Nat
  bytesSeen : Nat
  lowerBoundary : Nat
  upperBoundary : Nat
deriving DecidableEq, Repr

/-- Fresh decoder state. -/
def Utf8State.init : Utf8State :=
  { codePoint := 0, bytesNeeded := 0, bytesSeen := 0
    lowerBoundary := 0x80, upperBoundary := 0xBF }

/-- Handle one byte from the initial state (no sequence in progress). -/
def utf8Lead (b : Nat) : Utf8State × List Char :=
  if b ≤ 0x7F then (Utf8State.init, [Char.ofNat b])
  else if 0xC2 ≤ b ∧ b ≤ 0xDF then
    ({ codePoint := b &&& 0x1F, bytesNeeded := 1, bytesSeen := 0
       lowerBoundary := 0x80, upperBoundary := 0xBF }, [])
  else if 0xE0 ≤ b ∧ b ≤ 0xEF then
    ({ codePoint := b &&& 0xF, bytesNeeded := 2, bytesSeen := 0
       lowerBoundary := if b = 0xE0 then 0xA0 else 0x80
       upperBoundary := if b = 0xED then 0x9F else 0xBF }, [])
  else if 0xF0 ≤ b ∧ b ≤ 0xF4 then
    ({ codePoint := b &&& 0x7, bytesNeeded := 3, bytesSeen := 0
       lowerBoundary := if b = 0xF0 then 0x90 else 0x80
       upperBoundary := if b = 0xF4 then 0x8F else 0xBF }, [])
  else (Utf8State.init, [replacementChar])

/-- Feed one byte into the decoder. -/
def utf8Step (st : Utf8State) (b : Nat) : Utf8State × List Char :=
  if st.bytesNeeded = 0 then utf8Lead b
  else if st.lowerBoundary ≤ b ∧ b ≤ st.upperBoundary then
    let cp := (st.codePoint <<< 6) ||| (b &&& 0x3F)
    if st.bytesSeen + 1 = st.bytesNeeded then (Utf8State.init, [Char.ofNat cp])
    else
      ({ codePoint := cp, bytesNeeded := st.bytesNeeded
         bytesSeen := st.bytesSeen + 1
         lowerBoundary := 0x80, upperBoundary := 0xBF }, [])
  else
    let (st2, cs) := utf8Lead b
    (st2, replacementChar :: cs)

/-- `decoder.decode(value, { stream: true })`: decode one chunk of bytes,
carrying the decoder state. -/
def utf8DecodeChunk (st : Utf8State) (bytes : List Nat) : Utf8State × String :=
  bytes.foldl
    (fun acc b =>
      let (st2, cs) := utf8Step acc.1 b
      (st2, acc.2 ++ String.mk cs))
    (st, "")

/-- The final argumentless `decoder.decode()`: flushes a replacement
character when the stream ended inside an incomplete sequence. -/
def utf8Flush (st : Utf8State) : String :=
  if st.bytesNeeded = 0 then "" else String.mk [replacementChar]

/-- Decode a sequence of chunks in arrival order, threading the decoder
state; returns the per-chunk decoded strings and the final state. -/
def decodeChunks (st : Utf8State) : List (List Nat) → List String × Utf8State
  | [] => ([], st)
  | c :: cs =>
    let (st1, s1) := utf8DecodeChunk st c
    let (rest, st2) := decodeChunks st1 cs
    (s1 :: rest, st2)

/-!
### Fetch outcomes and the bridge itself
-/

/-- How the upstream response's body is delivered. -/
inductive BodyDelivery where
  /-- `response.body` is a readable stream: the reader yields `chunks` in
  order; then, when `failAfter = some m`, the next `read()` rejects with
  message `m`, otherwise the stream reports done. -/
  | stream (chunks : List (List Nat)) (failAfter : Option String)
  /-- No readable stream; `response.text()` resolves to `t`. -/
  | text (t : String)
  /-- No readable stream; `response.text()` rejects with message `m`. -/
  | textFailed (m : String)
deriving DecidableEq, Repr

/-- The outcome of the `fetch` call issued by the bridge. -/
inductive FetchOutcome where
  /-- `fetch` resolves with status, headers and a body delivery. -/
  | success (status : Nat) (headers : Headers) (body : BodyDelivery)
  /-- `fetch` rejects with an `Error` whose message is `m` (a
  transport/network failure). -/
  | rejectError (m : String)
  /-- `fetch` rejects with a `Response`-like object (status and an
  optional readable error body). -/
  | rejectResponse (status : Nat) (bodyText : Option String)
deriving DecidableEq, Repr

/-- The call issued to `fetch`: URL after the pre-processing rewrite,
method, headers, and the body (omitted for `GET`/`HEAD`). -/
structure FetchCall where
  url : String
  method : String
  headers : Headers
  body : Option String
deriving DecidableEq, Repr

/-- `handleHttpRequest(request)` given the fetch outcome: returns the
fetch call it issues and the ordered list of outbound messages it passes
to `sendToServer`. -/
def handleHttpRequest (request : WSHttpRequestMessage) (outcome : FetchOutcome) :
    FetchCall × List OutMsg :=
  let id := request.id
  let method := request.payload.method
  let url := stripKeyFromModelsUrl method request.payload.url
  let call : FetchCall :=
    { url := url
      method := method
      headers := request.payload.headers
      body :=
        if method ≠ "GET" ∧ method ≠ "HEAD" then request.payload.body
        else none }
  let msgs :=
    match outcome with
    | FetchOutcome.success status headers delivery =>
      match delivery with
      | BodyDelivery.stream chunks failAfter =>
        let (datas, st) := decodeChunks Utf8State.init chunks
        match failAfter with
        | some m =>
          OutMsg.streamStart id status headers ::
            datas.map (OutMsg.streamChunk id) ++
            [OutMsg.errorMsg id "FETCH_ERROR" m none]
        | none =>
          let fin := utf8Flush st
          OutMsg.streamStart id status headers ::
            (datas ++ if fin = "" then [] else [fin]).map (OutMsg.streamChunk id) ++
            [OutMsg.streamEnd id]
      | BodyDelivery.text t =>
        [OutMsg.httpResponse id status headers t]
      | BodyDelivery.textFailed m =>
        [OutMsg.errorMsg id "FETCH_ERROR" m none]
    | FetchOutcome.rejectError m =>
      [OutMsg.errorMsg id "FETCH_ERROR" m none]
    | FetchOutcome.rejectResponse status bodyText =>
      if status ≠ 0 then
        [OutMsg.errorMsg id "HTTP_ERROR" "[object Response]"
           (some (status, bodyText.getD "Could not read error body"))]
      else
        [OutMsg.errorMsg id "FETCH_ERROR" "[object Response]" none]
  (call, msgs)

/-!
## Runs of the connection state machine
-/

/-- The states reachable from the initial module state by the events the
environment can deliver: the public commands (`connect`, `disconnect`),
the transport's `open`/`close` events, the reconnect timer firing, and
inbound frames.  A keep-alive tick performs effects but never changes the
state, so it needs no constructor. -/
inductive Reachable : Session → Prop where
  | init : Reachable initSession
  | connectStep (tok : String) (instOk : Bool) {s : Session} :
      Reachable s → Reachable (connect tok instOk s).1
  | disconnectStep {s : Session} :
      Reachable s → Reachable (disconnect s).1
  | openStep {s : Session} :
      Reachable s → Reachable (openEvt s).1
  | closeStep (code : Nat) (reason : String) {s : Session} :
      Reachable s → Reachable (closeEvt code reason s).1
  | timerStep (instOk : Bool) {s : Session} :
      Reachable s → Reachable (timerFires instOk s).1
  | messageStep (frame : InboundFrame) {s : Session} :
      Reachable s → Reachable (onSocketMessage frame s).1

/-- The base (non-jittered) delays of the timers scheduled in a list of
effects, in order. -/
def scheduledOf : List Effect → List Nat
  | [] => []
  | Effect.scheduleTimer d :: es => d :: scheduledOf es
  | _ :: es => scheduledOf es

/-- The canonical failure run: starting from a freshly opened connection
(`connect` then the `open` event), each round lets a pending reconnect
timer fire (the reconnect attempt constructs a socket that never opens)
and then delivers a non-explicit transport close.  Returns the state after
`n` closes and the base delays scheduled so far, in order. -/
def failRun : Nat → Session × List Nat
  | 0 => ((openEvt (connect "tok" true initSession).1).1, [])
  | n + 1 =>
    let (s, ds) := failRun n
    let (s1, e1) := if s.reconnectPending then timerFires true s else (s, [])
    let (s2, e2) := closeEvt 1006 "abnormal closure" s1
    (s2, ds ++ scheduledOf (e1 ++ e2))

/-- The shape of the state the canonical failure run returns to after
every close: reconnect timer pending, no socket, stored delay `d`. -/
def loopSession (d : Nat) : Session :=
  { socket := none
    currentStatus := Status.RECONNECTING
    statusDetail := some "Attempting to reconnect..."
    pingActive := false
    reconnectPending := true
    currentReconnectDelay := d
    explicitClose := false
    currentJwtToken := some "tok" }

/-- Whether an outbound message is an `error` message. -/
def isErrorMsg : OutMsg → Bool
  | OutMsg.errorMsg _ _ _ _ => true
  | _ => false

/-- Keep-alive invariant: while the status is Connected no reconnect timer
is pending, and while the status is Connected with no explicit close
requested the keep-alive interval is live. -/
def PingInv (s : Session) : Prop :=
  (s.currentStatus = Status.CONNECTED → s.reconnectPending = false) ∧
  (s.currentStatus = Status.CONNECTED → s.explicitClose = false →
    s.pingActive = true)

/-!
## Theorems
-/

/-- Decoding produces one decoded string per body chunk. -/
theorem decodeChunks_length (st : Utf8State) (chunks : List (List Nat)) :
    (decodeChunks st chunks).1.length = chunks.length := by
  induction chunks generalizing st with
  | nil => rfl
  | cons c cs ih => simp [decodeChunks, ih]

/-- C7: a `connect` call with an empty/missing token, from any state,
moves the Session to Error with detail "JWT Token is required to
connect.", and no transport is opened. -/
theorem connect_empty_token_errors (s : Session) (instOk : Bool) :
    connect "" instOk s =
      ({ s with currentStatus := Status.ERROR,
                statusDetail := some "JWT Token is required to connect." },
       [Effect.statusChange Status.ERROR
          (some "JWT Token is required to connect.")]) ∧
    (connect "" instOk s).1.currentStatus = Status.ERROR ∧
    (∀ url, Effect.openTransport url ∉ (connect "" instOk s).2) := by
  refine ⟨?_, ?_, ?_⟩ <;>
    simp [connect, updateStatus, strFalsy]

/-- C8: a non-parseable inbound frame, and a parseable inbound message
whose type is neither `http_request` nor `pong`, are logged and dropped:
the session state (status included) is unchanged and only a log effect is
produced; moreover `onSocketMessage` never changes the state, never sends
an outbound message and never closes the transport, for any frame. -/
theorem malformed_and_unknown_frames_dropped :
    (∀ s raw, onSocketMessage (InboundFrame.unparseable raw) s =
      (s, [Effect.log "Error parsing message from server or handling it."])) ∧
    (∀ s t, onSocketMessage (InboundFrame.parsed (ServerMsg.other t)) s =
      (s, [Effect.log "Received unknown message type"])) ∧
    (∀ s frame, (onSocketMessage frame s).1 = s ∧
      (∀ m, Effect.send m ∉ (onSocketMessage frame s).2) ∧
      (∀ code reason,
        Effect.closeTransport code reason ∉ (onSocketMessage frame s).2)) := by
  refine ⟨fun _ _ => rfl, fun _ _ => rfl, fun s frame => ?_⟩
  rcases frame with raw | msg
  · simp [onSocketMessage]
  · rcases msg with m | _ | t <;> simp [onSocketMessage]

/-- C9: `disconnect()` when no transport is live does not open a
transport, and the status ends at Idle. -/
theorem disconnect_without_socket_idles (s : Session)
    (h : s.socket = none) :
    (disconnect s).1.currentStatus = Status.IDLE ∧
    (disconnect s).1.socket = none ∧
    (∀ url, Effect.openTransport url ∉ (disconnect s).2) := by
  cases hp : s.reconnectPending <;>
    refine ⟨?_, ?_, ?_⟩ <;>
      simp [disconnect, stopPing, updateStatus, strFalsy, h, hp]

/-- Witness for `disconnect_without_socket_idles` at the initial state. -/
theorem disconnect_without_socket_idles_witness :
    (disconnect initSession).1.currentStatus = Status.IDLE ∧
    (disconnect initSession).1.socket = none ∧
    (∀ url, Effect.openTransport url ∉ (disconnect initSession).2) :=
  disconnect_without_socket_idles initSession rfl

/-- C10: `connect` with a non-empty token while the socket is already open
or connecting opens no transport, changes no status, leaves the
explicit-close flag untouched, and only replaces the stored token. -/
theorem connect_while_open_replaces_token_only (s : Session)
    (tok : String) (instOk : Bool) (htok : tok ≠ "")
    (hsock : s.socket = some SocketReady.OPEN ∨
             s.socket = some SocketReady.CONNECTING) :
    connect tok instOk s =
      ({ s with currentJwtToken := some tok },
       [Effect.log "Already connected or connecting."]) ∧
    (connect tok instOk s).1.currentStatus = s.currentStatus ∧
    (connect tok instOk s).1.explicitClose = s.explicitClose ∧
    (connect tok instOk s).1.currentJwtToken = some tok ∧
    (∀ url, Effect.openTransport url ∉ (connect tok instOk s).2) := by
  have hcond : ({ s with currentJwtToken := some tok } : Session).socket =
      some SocketReady.OPEN ∨
      ({ s with currentJwtToken := some tok } : Session).socket =
      some SocketReady.CONNECTING := by simpa using hsock
  refine ⟨?_, ?_, ?_, ?_, ?_⟩ <;>
    simp [connect, htok, hcond]

/-- Witness for `connect_while_open_replaces_token_only` on a concrete
open-socket state. -/
theorem connect_while_open_replaces_token_only_witness :
    connect "t2" true { initSession with socket := some SocketReady.OPEN } =
      ({ initSession with socket := some SocketReady.OPEN,
                          currentJwtToken := some "t2" },
       [Effect.log "Already connected or connecting."]) :=
  (connect_while_open_replaces_token_only
    { initSession with socket := some SocketReady.OPEN } "t2" true
    (by decide) (Or.inl rfl)).1

/-- C6: a transport close event while a reconnect timer is already pending
is ignored: the status (and its detail) does not change, no second timer
is scheduled, and the stored reconnect delay is unchanged; the single
timer stays pending. -/
theorem close_with_pending_timer_ignored (s : Session)
    (code : Nat) (reason : String) (h : s.reconnectPending = true) :
    (closeEvt code reason s).1.currentStatus = s.currentStatus ∧
    (closeEvt code reason s).1.statusDetail = s.statusDetail ∧
    (closeEvt code reason s).1.currentReconnectDelay =
      s.currentReconnectDelay ∧
    (closeEvt code reason s).1.reconnectPending = true ∧
    (∀ d, Effect.scheduleTimer d ∉ (closeEvt code reason s).2) ∧
    (∀ st dt, Effect.statusChange st dt ∉ (closeEvt code reason s).2) := by
  refine ⟨?_, ?_, ?_, ?_, ?_, ?_⟩ <;>
    simp [closeEvt, onSocketClose, stopPing, h]

/-- Witness for `close_with_pending_timer_ignored` on a concrete state
with a pending reconnect timer. -/
theorem close_with_pending_timer_ignored_witness :
    (closeEvt 1006 "lost" (loopSession 4000)).1.currentStatus =
      (loopSession 4000).currentStatus ∧
    (closeEvt 1006 "lost" (loopSession 4000)).1.currentReconnectDelay =
      (loopSession 4000).currentReconnectDelay ∧
    (∀ d, Effect.scheduleTimer d ∉ (closeEvt 1006 "lost" (loopSession 4000)).2) :=
  ⟨(close_with_pending_timer_ignored (loopSession 4000) 1006 "lost" rfl).1,
   (close_with_pending_timer_ignored (loopSession 4000) 1006 "lost" rfl).2.2.1,
   (close_with_pending_timer_ignored (loopSession 4000) 1006 "lost" rfl).2.2.2.2.1⟩

/-- Counterexample to C2 as stated: a transport/network failure while
reading the streaming body (after `fetch` has resolved) yields, for the
command's id, a `stream_start` and a `stream_chunk` in addition to the
single `error` message — three outbound messages for id "r2", not one. -/
theorem midstream_failure_extra_messages :
    (handleHttpRequest
        ⟨"r2", ⟨"POST", "https://upstream.example/v1/generate", [],
          some "{}"⟩⟩
        (FetchOutcome.success 200 []
          (BodyDelivery.stream [[97]] (some "network error")))).2 =
      [OutMsg.streamStart "r2" 200 [], OutMsg.streamChunk "r2" "a",
       OutMsg.errorMsg "r2" "FETCH_ERROR" "network error" none] ∧
    ((handleHttpRequest
        ⟨"r2", ⟨"POST", "https://upstream.example/v1/generate", [],
          some "{}"⟩⟩
        (FetchOutcome.success 200 []
          (BodyDelivery.stream [[97]] (some "network error")))).2.filter
      (fun m => m.msgId == some "r2")).length = 3 := by
  exact ⟨by decide, by decide⟩

/-- C2 (amended): when the `fetch` call itself rejects — and likewise when
reading the buffered body fails — the bridge emits exactly one outbound
message, an `error` carrying the command's id; when the failure occurs
while reading the streaming body, the single `error` with the command's id
is the last message (after the already-emitted `stream_start` and
`stream_chunk`s) and no `stream_end` is emitted; and for every outcome
the bridge resolves into at least one outbound message (it never
throws). -/
theorem bridge_failure_resolves_to_error :
    (∀ (req : WSHttpRequestMessage) (m : String),
      (handleHttpRequest req (FetchOutcome.rejectError m)).2 =
        [OutMsg.errorMsg req.id "FETCH_ERROR" m none]) ∧
    (∀ (req : WSHttpRequestMessage) (status : Nat) (headers : Headers)
        (m : String),
      (handleHttpRequest req
          (FetchOutcome.success status headers (BodyDelivery.textFailed m))).2 =
        [OutMsg.errorMsg req.id "FETCH_ERROR" m none]) ∧
    (∀ (req : WSHttpRequestMessage) (status : Nat) (headers : Headers)
        (chunks : List (List Nat)) (m : String),
      ((handleHttpRequest req
          (FetchOutcome.success status headers
            (BodyDelivery.stream chunks (some m)))).2.filter isErrorMsg =
        [OutMsg.errorMsg req.id "FETCH_ERROR" m none]) ∧
      ((handleHttpRequest req
          (FetchOutcome.success status headers
            (BodyDelivery.stream chunks (some m)))).2.getLast? =
        some (OutMsg.errorMsg req.id "FETCH_ERROR" m none)) ∧
      OutMsg.streamEnd req.id ∉
        (handleHttpRequest req
          (FetchOutcome.success status headers
            (BodyDelivery.stream chunks (some m)))).2) ∧
    (∀ (req : WSHttpRequestMessage) (outcome : FetchOutcome),
      (handleHttpRequest req outcome).2 ≠ []) := by
  refine ⟨fun _ _ => rfl, fun _ _ _ _ => rfl, fun req status headers chunks m => ?_, ?_⟩
  · refine ⟨?_, ?_, ?_⟩
    · simp [handleHttpRequest, List.filter_append, List.filter_map,
        isErrorMsg, Function.comp]
    · show ((OutMsg.streamStart req.id status headers ::
          (decodeChunks Utf8State.init chunks).1.map (OutMsg.streamChunk req.id)) ++
          [OutMsg.errorMsg req.id "FETCH_ERROR" m none]).getLast? = _
      rw [List.getLast?_append_cons]
      rfl
    · simp [handleHttpRequest]
  · intro req outcome
    rcases outcome with ⟨status, headers, delivery⟩ | m | ⟨status, bodyText⟩
    · rcases delivery with ⟨chunks, _ | m⟩ | t | m <;> simp [handleHttpRequest]
    · simp [handleHttpRequest]
    · by_cases hs : status = 0 <;> simp [handleHttpRequest, hs]

/-- C3: for a streaming upstream response the bridge emits, in program
order and all with the command's id: one `stream_start` with status and
headers, one `stream_chunk` per body chunk in arrival order (the text
decoder carries multi-byte state across chunk boundaries), an extra final
`stream_chunk` exactly when the decoder flushes a residual partial
character, then one `stream_end`.  Shown concretely for a body arriving in
three chunks decoding to "ab", "cd", "ef", for a three-byte character
split across two chunks, and for a trailing partial character; and in
general for every chunk sequence. -/
theorem streaming_response_message_sequence :
    ((handleHttpRequest
        ⟨"r1", ⟨"GET", "https://api.example.com/v1/stream", [], none⟩⟩
        (FetchOutcome.success 200 [("content-type", "text/event-stream")]
          (BodyDelivery.stream [[97, 98], [99, 100], [101, 102]] none))).2 =
      [OutMsg.streamStart "r1" 200 [("content-type", "text/event-stream")],
       OutMsg.streamChunk "r1" "ab", OutMsg.streamChunk "r1" "cd",
       OutMsg.streamChunk "r1" "ef", OutMsg.streamEnd "r1"]) ∧
    ((handleHttpRequest ⟨"r1", ⟨"GET", "https://u/s", [], none⟩⟩
        (FetchOutcome.success 200 []
          (BodyDelivery.stream [[0xE2, 0x82], [0xAC]] none))).2 =
      [OutMsg.streamStart "r1" 200 [], OutMsg.streamChunk "r1" "",
       OutMsg.streamChunk "r1" "€", OutMsg.streamEnd "r1"]) ∧
    ((handleHttpRequest ⟨"r1", ⟨"GET", "https://u/s", [], none⟩⟩
        (FetchOutcome.success 200 []
          (BodyDelivery.stream [[97], [0xC3]] none))).2 =
      [OutMsg.streamStart "r1" 200 [], OutMsg.streamChunk "r1" "a",
       OutMsg.streamChunk "r1" "",
       OutMsg.streamChunk "r1" (String.mk [replacementChar]),
       OutMsg.streamEnd "r1"]) ∧
    (∀ (id : String) (pl : HttpRequestPayload) (status : Nat)
        (headers : Headers) (chunks : List (List Nat)),
      ∃ datas : List String,
        (handleHttpRequest ⟨id, pl⟩
            (FetchOutcome.success status headers
              (BodyDelivery.stream chunks none))).2 =
          OutMsg.streamStart id status headers ::
            datas.map (OutMsg.streamChunk id) ++ [OutMsg.streamEnd id] ∧
        (datas.length = chunks.length ∨ datas.length = chunks.length + 1) ∧
        datas.take chunks.length = (decodeChunks Utf8State.init chunks).1) := by
  refine ⟨by decide, by decide, by decide,
    fun id pl status headers chunks => ?_⟩
  refine ⟨(decodeChunks Utf8State.init chunks).1 ++
    (if utf8Flush (decodeChunks Utf8State.init chunks).2 = "" then []
     else [utf8Flush (decodeChunks Utf8State.init chunks).2]), rfl, ?_, ?_⟩
  · by_cases hf : utf8Flush (decodeChunks Utf8State.init chunks).2 = "" <;>
      simp [hf, decodeChunks_length]
  · conv_lhs => rw [show chunks.length = (decodeChunks Utf8State.init chunks).1.length
      from (decodeChunks_length _ _).symm]
    exact List.take_left _ _

/-- C4: for a `GET` `http_request` whose URL parses with a pathname ending
in the models-listing segment and whose query carries the credential
parameter `key`, the fetch call the bridge issues uses the URL
re-serialised with every `key` parameter removed; every other query
parameter is kept; concretely,
`https://api.example.com/v1beta/models?key=secret123` is fetched as
`https://api.example.com/v1beta/models`. -/
theorem get_models_key_stripped (url : String) (pu : ParsedUrl)
    (hparse : parseUrl url = some pu)
    (hpath : strEndsWith pu.pathname "/v1beta/models" = true ∨
             strEndsWith pu.pathname "/v1beta/models/" = true)
    (hkey : pu.params.any (fun p => p.1 = "key") = true) :
    (∀ (id : String) (headers : Headers) (body : Option String)
        (outcome : FetchOutcome),
      ((handleHttpRequest ⟨id, ⟨"GET", url, headers, body⟩⟩ outcome).1).url =
        serializeUrl { pu with params := pu.params.filter (fun p => p.1 ≠ "key") }) ∧
    (∀ p ∈ pu.params, p.1 ≠ "key" →
      p ∈ pu.params.filter (fun p => p.1 ≠ "key")) ∧
    stripKeyFromModelsUrl "GET"
        "https://api.example.com/v1beta/models?key=secret123" =
      "https://api.example.com/v1beta/models" := by
  refine ⟨fun id headers body outcome => ?_, fun p hp hne => ?_, by decide⟩
  · show stripKeyFromModelsUrl "GET" url = _
    simp only [stripKeyFromModelsUrl, hparse, if_true, reduceIte]
    rw [if_pos (by simpa using hpath), if_pos hkey]
  · simp [List.mem_filter, hp, hne]

/-- A string with a non-empty left part is non-empty. -/
theorem append_ne_empty (a b : String) (h : a ≠ "") : a ++ b ≠ "" := by
  intro hc
  apply h
  have hd := congrArg String.data hc
  simp only [String.data_append] at hd
  rcases List.append_eq_nil.mp hd with ⟨h1, -⟩
  cases a
  simp_all

/-- In the canonical failure run, firing the pending timer reconnects with
the stored token: a fresh connecting socket, same stored delay. -/
theorem timerFires_loopSession (d : Nat) :
    timerFires true (loopSession d) =
      ({ socket := some SocketReady.CONNECTING,
         currentStatus := Status.CONNECTING,
         statusDetail := none, pingActive := false,
         reconnectPending := false, currentReconnectDelay := d,
         explicitClose := false, currentJwtToken := some "tok" },
       [Effect.statusChange Status.CONNECTING none,
        Effect.openTransport (wsUrl "tok")]) := rfl

/-- Closing the fresh connecting socket schedules the current delay and
doubles the stored one up to the ceiling, returning to the loop shape. -/
theorem closeEvt_after_attempt (d : Nat) :
    closeEvt 1006 "abnormal closure"
      { socket := some SocketReady.CONNECTING,
        currentStatus := Status.CONNECTING,
        statusDetail := none, pingActive := false,
        reconnectPending := false, currentReconnectDelay := d,
        explicitClose := false, currentJwtToken := some "tok" } =
      (loopSession (min (d * 2) RECONNECT_MAX_DELAY_MS),
       [Effect.statusChange Status.DISCONNECTED
          (some "Connection closed. Code: 1006, Reason: abnormal closure"),
        Effect.statusChange Status.RECONNECTING
          (some "Attempting to reconnect..."),
        Effect.scheduleTimer d]) := rfl

/-- Closed form of the canonical failure run: after `n + 1` consecutive
non-explicit closes the stored delay is `min (floor * 2^(n+1)) ceiling`,
and the base delays scheduled so far are `min (floor * 2^k) ceiling` for
`k = 0 .. n` in order. -/
theorem failRun_closed_form (n : Nat) :
    failRun (n + 1) =
      (loopSession
         (min (RECONNECT_INITIAL_DELAY_MS * 2 ^ (n + 1)) RECONNECT_MAX_DELAY_MS),
       (List.range (n + 1)).map
         (fun k => min (RECONNECT_INITIAL_DELAY_MS * 2 ^ k) RECONNECT_MAX_DELAY_MS)) := by
  induction n with
  | zero => decide
  | succ n ih =>
    have harith :
        min (min (RECONNECT_INITIAL_DELAY_MS * 2 ^ (n + 1)) RECONNECT_MAX_DELAY_MS * 2)
          RECONNECT_MAX_DELAY_MS =
        min (RECONNECT_INITIAL_DELAY_MS * 2 ^ (n + 2)) RECONNECT_MAX_DELAY_MS := by
      have h2 : RECONNECT_INITIAL_DELAY_MS * 2 ^ (n + 2) =
          RECONNECT_INITIAL_DELAY_MS * 2 ^ (n + 1) * 2 := by
        rw [pow_succ]; ring
      rw [h2]
      generalize RECONNECT_INITIAL_DELAY_MS * 2 ^ (n + 1) = a
      simp only [RECONNECT_MAX_DELAY_MS]
      omega
    rw [failRun, ih]
    simp only [show ∀ d, (loopSession d).reconnectPending = true from fun _ => rfl,
      if_true]
    rw [timerFires_loopSession, closeEvt_after_attempt]
    dsimp only [scheduledOf]
    simp [harith, List.range_succ]

/-- C1: every non-explicit transport close handled without a pending
timer, with a usable stored token, schedules a reconnect whose
non-jittered delay component is the stored delay and then doubles the
stored delay up to the ceiling; hence along a run of `n` consecutive
non-explicit closes with no successful open in between, the nth scheduled
non-jittered delay equals `min (floor * 2^(n-1)) ceiling` (floor 1000 ms,
ceiling 30000 ms); and after any successful open the stored reconnect
delay equals the floor again, wherever it had climbed. -/
theorem reconnect_backoff_doubles_and_resets :
    (∀ (s : Session) (code : Nat) (reason tok : String),
      s.reconnectPending = false → s.explicitClose = false →
      s.currentJwtToken = some tok → tok ≠ "" →
      Effect.scheduleTimer s.currentReconnectDelay ∈ (closeEvt code reason s).2 ∧
      (closeEvt code reason s).1.currentReconnectDelay =
        min (s.currentReconnectDelay * 2) RECONNECT_MAX_DELAY_MS) ∧
    (∀ n : Nat, 1 ≤ n →
      ((failRun n).2).getD (n - 1) 0 =
        min (RECONNECT_INITIAL_DELAY_MS * 2 ^ (n - 1)) RECONNECT_MAX_DELAY_MS) ∧
    (∀ s : Session,
      (openEvt s).1.currentReconnectDelay = RECONNECT_INITIAL_DELAY_MS) := by
  refine ⟨?_, ?_, ?_⟩
  · intro s code reason tok hp he ht htok
    have hfalsy : strFalsy (some tok) = false := by simp [strFalsy, htok]
    have hsf : ∀ x : String,
        strFalsy (some ("Connection closed. Code: " ++ toString code ++
          ", Reason: " ++ x)) = false := by
      intro x
      simp only [strFalsy, decide_eq_false_iff_not]
      exact append_ne_empty _ _
        (append_ne_empty _ _ (append_ne_empty _ _ (by decide)))
    constructor <;>
      simp [closeEvt, onSocketClose, scheduleReconnect, updateStatus, stopPing,
        hp, he, ht, hfalsy, hsf]
  · intro n hn
    obtain ⟨m, rfl⟩ : ∃ m, n = m + 1 := ⟨n - 1, by omega⟩
    rw [failRun_closed_form]
    simp [List.getD_eq_getElem?_getD, List.getElem?_map,
      List.getElem?_range (Nat.lt_succ_self m)]
  · intro s
    cases hb : ((updateStatus Status.CONNECTED none
        { s with socket := s.socket.map (fun _ => SocketReady.OPEN) }).1).reconnectPending <;>
      simp [openEvt, onSocketOpen, startPing, hb]

/-- Witness for `reconnect_backoff_doubles_and_resets`: the sixth
scheduled delay in the canonical failure run has hit the 30000 ms
ceiling, and a close from a concrete quiescent connected state schedules
its stored 4000 ms delay. -/
theorem reconnect_backoff_doubles_and_resets_witness :
    ((failRun 6).2).getD 5 0 =
      min (RECONNECT_INITIAL_DELAY_MS * 2 ^ 5) RECONNECT_MAX_DELAY_MS ∧
    Effect.scheduleTimer 4000 ∈
      (closeEvt 1005 ""
        { (loopSession 4000) with reconnectPending := false }).2 :=
  ⟨reconnect_backoff_doubles_and_resets.2.1 6 (by decide),
   (reconnect_backoff_doubles_and_resets.1
      { (loopSession 4000) with reconnectPending := false } 1005 "" "tok"
      rfl rfl rfl (by decide)).1⟩

/-- Witness for `get_models_key_stripped` on a URL carrying a second query
parameter, which is preserved while `key` is stripped. -/
theorem get_models_key_stripped_witness :
    ((handleHttpRequest
        ⟨"r1", ⟨"GET", "https://api.example.com/v1beta/models?key=secret123&alt=json",
          [], none⟩⟩
        (FetchOutcome.rejectError "offline")).1).url =
      "https://api.example.com/v1beta/models?alt=json" :=
  Eq.trans
    ((get_models_key_stripped
        "https://api.example.com/v1beta/models?key=secret123&alt=json"
        { base := "https://api.example.com", pathname := "/v1beta/models",
          params := [("key", "secret123"), ("alt", "json")], hash := "" }
        (by decide) (Or.inl (by decide)) (by decide)).1 "r1" [] none
      (FetchOutcome.rejectError "offline"))
    (by decide)

/-- `connect` preserves the keep-alive invariant. -/
theorem pingInv_connect (tok : String) (instOk : Bool) (s : Session)
    (h : PingInv s) : PingInv (connect tok instOk s).1 := by
  obtain ⟨h1, h2⟩ := h
  by_cases h0 : tok = "" <;>
  by_cases hs : s.socket = some SocketReady.OPEN ∨
    s.socket = some SocketReady.CONNECTING <;>
  by_cases hcs : s.currentStatus = Status.CONNECTING <;>
  cases instOk <;>
  by_cases hrp : s.reconnectPending = true <;>
    constructor <;>
      simp_all [PingInv, connect, updateStatus, scheduleReconnect, strFalsy]

/-- The transport's open event establishes the keep-alive invariant. -/
theorem pingInv_open (s : Session) (h : PingInv s) : PingInv (openEvt s).1 := by
  obtain ⟨h1, h2⟩ := h
  by_cases hcs : s.currentStatus = Status.CONNECTED <;>
  by_cases hrp : s.reconnectPending = true <;>
    constructor <;>
      simp_all [PingInv, openEvt, onSocketOpen, updateStatus, startPing, strFalsy]

/-- The transport's close event preserves the keep-alive invariant. -/
theorem pingInv_close (code : Nat) (reason : String) (s : Session)
    (h : PingInv s) : PingInv (closeEvt code reason s).1 := by
  obtain ⟨h1, h2⟩ := h
  have hsf1 : ∀ x : String,
      strFalsy (some ("Connection closed. Code: " ++ toString code ++
        ", Reason: " ++ x)) = false := by
    intro x
    simp only [strFalsy, decide_eq_false_iff_not]
    exact append_ne_empty _ _
      (append_ne_empty _ _ (append_ne_empty _ _ (by decide)))
  have hsf2 : strFalsy
      (some ("Connection closed by client. Code: " ++ toString code)) = false := by
    simp only [strFalsy, decide_eq_false_iff_not]
    exact append_ne_empty _ _ (by decide)
  by_cases hrp : s.reconnectPending = true <;>
  by_cases hec : s.explicitClose = true <;>
  by_cases htk : strFalsy s.currentJwtToken = true <;>
  by_cases hcs : s.currentStatus = Status.CONNECTED <;>
    constructor <;>
      simp_all [PingInv, closeEvt, onSocketClose, scheduleReconnect,
        updateStatus, stopPing]

/-- The reconnect timer callback preserves the keep-alive invariant. -/
theorem pingInv_timer (instOk : Bool) (s : Session) (h : PingInv s) :
    PingInv (timerFires instOk s).1 := by
  obtain ⟨h1, h2⟩ := h
  by_cases hrp : s.reconnectPending = true
  · by_cases htk : strFalsy s.currentJwtToken = true
    · constructor <;>
        simp_all [PingInv, timerFires, updateStatus, strFalsy]
    · have hinv : PingInv { s with reconnectPending := false } :=
        ⟨fun _ => rfl, h2⟩
      have hconn := pingInv_connect
        (({ s with reconnectPending := false } : Session).currentJwtToken.getD "")
        instOk _ hinv
      simp only [PingInv, timerFires, hrp, if_true, htk]
      simpa [htk] using hconn
  · constructor <;> simp_all [PingInv, timerFires]

/-- `disconnect` preserves the keep-alive invariant. -/
theorem pingInv_disconnect (s : Session) (h : PingInv s) :
    PingInv (disconnect s).1 := by
  obtain ⟨h1, h2⟩ := h
  rcases hs : s.socket with - | rs
  · by_cases hrp : s.reconnectPending = true <;>
      constructor <;>
        simp_all [PingInv, disconnect, updateStatus, stopPing, strFalsy]
  · rcases rs <;>
    by_cases hrp : s.reconnectPending = true <;>
      constructor <;>
        simp_all [PingInv, disconnect, onSocketClose, updateStatus, stopPing,
          strFalsy, show toString 1000 = "1000" from rfl]

/-- Inbound frames preserve the keep-alive invariant. -/
theorem pingInv_message (frame : InboundFrame) (s : Session) (h : PingInv s) :
    PingInv (onSocketMessage frame s).1 := by
  rcases frame with raw | msg
  · simpa [onSocketMessage] using h
  · rcases msg with m | - | t <;> simpa [onSocketMessage] using h

/-- The initial state satisfies the keep-alive invariant. -/
theorem pingInv_init : PingInv initSession := by
  constructor <;> simp [initSession]

/-- Every reachable state satisfies the keep-alive invariant. -/
theorem pingInv_reachable (s : Session) (h : Reachable s) : PingInv s := by
  induction h with
  | init => exact pingInv_init
  | connectStep tok instOk hr ih => exact pingInv_connect tok instOk _ ih
  | disconnectStep hr ih => exact pingInv_disconnect _ ih
  | openStep hr ih => exact pingInv_open _ ih
  | closeStep code reason hr ih => exact pingInv_close code reason _ ih
  | timerStep instOk hr ih => exact pingInv_timer instOk _ ih
  | messageStep frame hr ih => exact pingInv_message frame _ ih

/-- Counterexample to C5 as stated: an empty-token `connect` while
connected yields a reachable state whose status is Error while the
keep-alive loop is still running and a tick still emits a ping — so the
loop does not run if and only if the status is Connected, and ping
messages are emitted in a status other than Connected. -/
theorem keepalive_iff_connected_counterexample :
    Reachable (connect "" true (openEvt (connect "tok" true initSession).1).1).1 ∧
    (connect "" true (openEvt (connect "tok" true initSession).1).1).1.currentStatus =
      Status.ERROR ∧
    (connect "" true (openEvt (connect "tok" true initSession).1).1).1.pingActive =
      true ∧
    pingTick (connect "" true (openEvt (connect "tok" true initSession).1).1).1 =
      [Effect.send OutMsg.ping] :=
  ⟨Reachable.connectStep "" true
      (Reachable.openStep (Reachable.connectStep "tok" true Reachable.init)),
   by decide, by decide, by decide⟩

/-- C5 (amended): in every reachable state, if the status is Connected and
no explicit close has been requested then the keep-alive loop is running;
a tick of the running loop on an open socket emits exactly one ping; and
when the loop is stopped a tick emits nothing.  (The unrestricted "if and
only if" fails on the code: `disconnect()` stops the loop while the
status is still Connected until the close event arrives, and `connect`
with an empty token moves the status to Error while leaving the loop
running.) -/
theorem keepalive_runs_while_connected (s : Session) (h : Reachable s) :
    (s.currentStatus = Status.CONNECTED → s.explicitClose = false →
      s.pingActive = true) ∧
    (s.pingActive = false → pingTick s = []) ∧
    (s.pingActive = true → s.socket = some SocketReady.OPEN →
      pingTick s = [Effect.send OutMsg.ping]) := by
  refine ⟨(pingInv_reachable s h).2, ?_, ?_⟩
  · intro hp
    simp [pingTick, hp]
  · intro hp hs
    simp [pingTick, sendToServer, hp, hs]

/-- Witness for `keepalive_runs_while_connected` at the freshly opened
connection. -/
theorem keepalive_runs_while_connected_witness :
    (openEvt (connect "tok" true initSession).1).1.pingActive = true ∧
    pingTick (openEvt (connect "tok" true initSession).1).1 =
      [Effect.send OutMsg.ping] :=
  ⟨(keepalive_runs_while_connected _
      (Reachable.openStep (Reachable.connectStep "tok" true Reachable.init))).1
      (by decide) (by decide),
   (keepalive_runs_while_connected _
      (Reachable.openStep (Reachable.connectStep "tok" true Reachable.init))).2.2
      (by decide) (by decide)⟩

end WSProxy
